import Mathlib

/-!
Verification of the slot-reservation and approval engine of the
whatsapp-business backend.

The durable state lives in four Postgres tables created in
`app/db/bookings_repo.py` (`db_init_bookings`).  Every repository function
opens a connection with `autocommit = True` (`app/db/conn.py`), so each SQL
statement takes effect immediately; we embed the store as a pure record of
row lists plus the `SERIAL` counters, and each repository function as a pure
state transformer.  `datetime.now(tz=SG_TZ)` is passed in explicitly as a
`now` argument.

Time: Asia/Singapore has no DST, so the source's datetime arithmetic
(`timedelta(minutes=...)`) is plain minute arithmetic.  We model a local
datetime as the number of minutes since a fixed reference Monday 00:00.
`weekday` (0 = Monday .. 6 = Sunday), `hour` and `minute` then follow
Python's accessors.  The `pending_start_local` TEXT column stores a
"YYYY-MM-DD HH:MM" string; that format denotes exactly one local datetime
and `_parse_dt_local` (`strptime`) is its inverse, so we store the denoted
minute value directly.
-/

namespace WhatsappBooking

/-- Python `datetime.weekday()`: 0 = Monday .. 6 = Sunday. -/
def weekday (t : Nat) : Nat := (t / 1440) % 7

/-- Python `datetime.hour`. -/
def hourOf (t : Nat) : Nat := (t % 1440) / 60

/-- Python `datetime.minute`. -/
def minuteOf (t : Nat) : Nat := t % 60

/-- `booking_holds.status` CHECK constraint (bookings_repo.py:61). -/
inductive HoldStatus
  | active
  | released
  | expired
  deriving DecidableEq, Repr

/-- `booking_requests.status` CHECK constraint (bookings_repo.py:41):
`status IN ('pending','approved','rejected','expired')`. -/
inductive RequestStatus
  | pending
  | approved
  | rejected
  | expired
  deriving DecidableEq, Repr

/-- `booking_drafts.status` CHECK constraint (bookings_repo.py:80). -/
inductive DraftStatus
  | proposed
  | confirmed
  | cancelled
  | expired
  deriving DecidableEq, Repr

/-- The set of strings the `booking_requests` CHECK constraint admits
(bookings_repo.py:41).  This is the string-level form of `RequestStatus`. -/
def requestStatusAllowed (s : String) : Bool :=
  s == "pending" || s == "approved" || s == "rejected" || s == "expired"

/-- `allowed` in the admin listing endpoint (booking_admin_api.py:49). -/
def adminAllowedStatusFilters : List String :=
  ["all", "pending", "approved", "rejected", "expired", "cancelled"]

/-- A row of `booking_requests` (bookings_repo.py:32-45). -/
structure RequestRow where
  id : Nat
  created_ts : Nat
  meta_phone_number_id : String
  customer_number : String
  service_key : String
  service_label : String
  start_ts : Nat
  end_ts : Nat
  status : RequestStatus
  admin_number : Option String
  admin_decision_ts : Option Nat
  admin_note : Option String
  deriving DecidableEq, Repr

/-- A row of `booking_holds` (bookings_repo.py:52-62). -/
structure HoldRow where
  id : Nat
  created_ts : Nat
  expires_ts : Nat
  customer_number : String
  service_key : String
  start_ts : Nat
  end_ts : Nat
  request_id : Option Nat
  status : HoldStatus
  deriving DecidableEq, Repr

/-- A row of `booking_drafts` (bookings_repo.py:69-81). -/
structure DraftRow where
  id : Nat
  created_ts : Nat
  expires_ts : Nat
  meta_phone_number_id : String
  customer_number : String
  service_key : String
  service_label : String
  start_ts : Nat
  end_ts : Nat
  hold_id : Nat
  status : DraftStatus
  deriving DecidableEq, Repr

/-- A row of `booking_context` (bookings_repo.py:17-24);
`customer_number` is the primary key. -/
structure ContextRow where
  customer_number : String
  updated_ts : Nat
  expires_ts : Nat
  pending_service_key : Option String
  pending_service_label : Option String
  pending_start_local : Option Nat
  deriving DecidableEq, Repr

/-- The shared relational store: the four tables plus the `SERIAL`
counters (Postgres `SERIAL` starts at 1). -/
structure DB where
  requests : List RequestRow
  holds : List HoldRow
  drafts : List DraftRow
  contexts : List ContextRow
  nextRequestId : Nat
  nextHoldId : Nat
  nextDraftId : Nat
  deriving DecidableEq, Repr

/-- The empty, freshly initialised store. -/
def DB.empty : DB where
  requests := []
  holds := []
  drafts := []
  contexts := []
  nextRequestId := 1
  nextHoldId := 1
  nextDraftId := 1

/-- `_overlaps` (bookings_repo.py:98-99). -/
def overlaps (a_start a_end b_start b_end : Nat) : Bool :=
  decide (a_start < b_end) && decide (b_start < a_end)

/-- `expire_old_holds` (bookings_repo.py:102-117): bulk-transitions all
active holds past expiry to `expired` and returns the row count. -/
def expire_old_holds (now : Nat) (db : DB) : DB × Nat :=
  let cnt := db.holds.countP fun h => decide (h.status = .active ∧ h.expires_ts ≤ now)
  ({ db with holds := db.holds.map fun h =>
      if h.status = .active ∧ h.expires_ts ≤ now then { h with status := .expired } else h },
   cnt)

/-- `is_window_available` (bookings_repo.py:119-170): available iff no
approved request overlaps and no active hold (optionally excluding
`ignore_hold_id`) overlaps, under half-open `start_ts < end ∧ end_ts > start`. -/
def is_window_available (db : DB) (start_ts end_ts : Nat)
    (ignore_hold_id : Option Nat) : Bool :=
  let approved_cnt : Nat := db.requests.countP fun r =>
    decide (r.status = .approved ∧ r.start_ts < end_ts ∧ r.end_ts > start_ts)
  if approved_cnt > 0 then false
  else
    let hold_cnt : Nat :=
      match ignore_hold_id with
      | none => db.holds.countP fun h =>
          decide (h.status = .active ∧ h.start_ts < end_ts ∧ h.end_ts > start_ts)
      | some i => db.holds.countP fun h =>
          decide (h.status = .active ∧ h.id ≠ i ∧ h.start_ts < end_ts ∧ h.end_ts > start_ts)
    decide (hold_cnt = 0)

/-- `create_hold` (bookings_repo.py:173-198); `expires = now +
timedelta(minutes=hold_minutes)`; inserts an `active` hold and returns its id. -/
def create_hold (now : Nat) (customer_number service_key : String)
    (start_ts end_ts : Nat) (hold_minutes : Nat) (db : DB) : DB × Nat :=
  let h : HoldRow :=
    { id := db.nextHoldId
      created_ts := now
      expires_ts := now + hold_minutes
      customer_number := customer_number
      service_key := service_key
      start_ts := start_ts
      end_ts := end_ts
      request_id := none
      status := .active }
  ({ db with holds := db.holds ++ [h], nextHoldId := db.nextHoldId + 1 }, h.id)

/-- `release_hold` (bookings_repo.py:201-214): unconditional
`SET status = 'released' WHERE id = %s`. -/
def release_hold (hold_id : Nat) (db : DB) : DB :=
  { db with holds := db.holds.map fun h =>
      if h.id = hold_id then { h with status := .released } else h }

/-- `create_booking_request` (bookings_repo.py:217-241): inserts a
`pending` request and returns the bare integer id (`int(cur.fetchone()[0])`). -/
def create_booking_request (now : Nat)
    (meta_phone_number_id customer_number service_key service_label : String)
    (start_ts end_ts : Nat) (db : DB) : DB × Nat :=
  let r : RequestRow :=
    { id := db.nextRequestId
      created_ts := now
      meta_phone_number_id := meta_phone_number_id
      customer_number := customer_number
      service_key := service_key
      service_label := service_label
      start_ts := start_ts
      end_ts := end_ts
      status := .pending
      admin_number := none
      admin_decision_ts := none
      admin_note := none }
  ({ db with requests := db.requests ++ [r], nextRequestId := db.nextRequestId + 1 }, r.id)

/-- `link_hold_to_request` (bookings_repo.py:244-257). -/
def link_hold_to_request (hold_id request_id : Nat) (db : DB) : DB :=
  { db with holds := db.holds.map fun h =>
      if h.id = hold_id then { h with request_id := some request_id } else h }

/-- The argument of `decide_request`, constrained by
`assert decision in ("approved", "rejected")` (bookings_repo.py:364). -/
inductive Decision
  | approved
  | rejected
  deriving DecidableEq, Repr

def Decision.toStatus : Decision → RequestStatus
  | .approved => .approved
  | .rejected => .rejected

/-- `decide_request` (bookings_repo.py:363-383): conditional update
`WHERE id = %s AND status = 'pending'`; returns `rowcount == 1`. -/
def decide_request (now : Nat) (request_id : Nat) (admin_number : String)
    (decision : Decision) (admin_note : Option String) (db : DB) : DB × Bool :=
  let cnt : Nat := db.requests.countP fun r => decide (r.id = request_id ∧ r.status = .pending)
  ({ db with requests := db.requests.map fun r =>
      if r.id = request_id ∧ r.status = .pending then
        { r with
          status := decision.toStatus
          admin_number := some admin_number
          admin_decision_ts := some now
          admin_note := admin_note }
      else r },
   decide (cnt = 1))

/-- `find_hold_by_request` (bookings_repo.py:386-403):
`ORDER BY created_ts DESC LIMIT 1` over holds linked to the request. -/
def find_hold_by_request (request_id : Nat) (db : DB) : Option Nat :=
  let linked := db.holds.filter fun h => decide (h.request_id = some request_id)
  (linked.foldl (fun acc h =>
      match acc with
      | none => some h
      | some a => if a.created_ts < h.created_ts then some h else some a) none).map
    fun h => h.id

/-- `expire_old_drafts` (bookings_repo.py:406-446): transitions proposed
drafts past expiry to `expired`, releases their still-active holds, and
returns the number of expired drafts. -/
def expire_old_drafts (now : Nat) (db : DB) : DB × Nat :=
  let hold_ids := (db.drafts.filter fun d =>
      decide (d.status = .proposed ∧ d.expires_ts ≤ now)).map fun d => d.hold_id
  let expired_cnt : Nat := db.drafts.countP fun d =>
    decide (d.status = .proposed ∧ d.expires_ts ≤ now)
  ({ db with
      drafts := db.drafts.map fun d =>
        if d.status = .proposed ∧ d.expires_ts ≤ now then { d with status := .expired } else d
      holds := db.holds.map fun h =>
        if h.id ∈ hold_ids ∧ h.status = .active then { h with status := .released } else h },
   expired_cnt)

/-- `create_draft` (bookings_repo.py:450-510): cancels every existing
`proposed` draft of the customer, releases their still-active holds, then
inserts the new `proposed` draft and returns its id. -/
def create_draft (now : Nat)
    (meta_phone_number_id customer_number service_key service_label : String)
    (start_ts end_ts : Nat) (hold_id hold_minutes : Nat) (db : DB) : DB × Nat :=
  let old_hold_ids := (db.drafts.filter fun d =>
      decide (d.customer_number = customer_number ∧ d.status = .proposed)).map fun d => d.hold_id
  let nd : DraftRow :=
    { id := db.nextDraftId
      created_ts := now
      expires_ts := now + hold_minutes
      meta_phone_number_id := meta_phone_number_id
      customer_number := customer_number
      service_key := service_key
      service_label := service_label
      start_ts := start_ts
      end_ts := end_ts
      hold_id := hold_id
      status := .proposed }
  ({ db with
      drafts := (db.drafts.map fun d =>
        if d.customer_number = customer_number ∧ d.status = .proposed then
          { d with status := .cancelled } else d) ++ [nd]
      holds := db.holds.map fun h =>
        if h.id ∈ old_hold_ids ∧ h.status = .active then { h with status := .released } else h
      nextDraftId := db.nextDraftId + 1 },
   nd.id)

/-- `get_draft_by_id` (bookings_repo.py:544-573, the second, surviving
definition): full row including `status`. -/
def get_draft_by_id (draft_id : Nat) (db : DB) : Option DraftRow :=
  db.drafts.find? fun d => decide (d.id = draft_id)

/-- The row shape returned by `get_active_draft` (bookings_repo.py:583):
the SELECT omits the `status` column, so the returned dict has no
`"status"` key. -/
structure ActiveDraftRow where
  id : Nat
  meta_phone_number_id : String
  service_key : String
  service_label : String
  start_ts : Nat
  end_ts : Nat
  hold_id : Nat
  deriving DecidableEq, Repr

/-- `get_active_draft` (bookings_repo.py:576-604): first runs
`expire_old_drafts()`, then returns the most recent `proposed` draft of the
customer (ORDER BY created_ts DESC LIMIT 1), or none. -/
def get_active_draft (now : Nat) (customer_number : String) (db : DB) :
    DB × Option ActiveDraftRow :=
  let db1 := (expire_old_drafts now db).1
  let cands := db1.drafts.filter fun d =>
    decide (d.customer_number = customer_number ∧ d.status = .proposed)
  let best := cands.foldl (fun acc d =>
      match acc with
      | none => some d
      | some a => if a.created_ts < d.created_ts then some d else some a) none
  (db1, best.map fun d =>
    { id := d.id
      meta_phone_number_id := d.meta_phone_number_id
      service_key := d.service_key
      service_label := d.service_label
      start_ts := d.start_ts
      end_ts := d.end_ts
      hold_id := d.hold_id })

/-- `mark_draft` (bookings_repo.py:607-620): guarded by both draft id and
customer number. -/
def mark_draft (customer_number : String) (draft_id : Nat) (status : DraftStatus)
    (db : DB) : DB :=
  { db with drafts := db.drafts.map fun d =>
      if d.id = draft_id ∧ d.customer_number = customer_number then
        { d with status := status } else d }

/-- SQL `COALESCE` of the upsert (bookings_repo.py:642-644). -/
def coalesce {α : Type} (a b : Option α) : Option α :=
  match a with
  | some v => some v
  | none => b

/-- `upsert_booking_context` (bookings_repo.py:622-649): insert, or on
conflict refresh the timestamps and merge each pending field with
`COALESCE(EXCLUDED.field, old.field)` (a `None` argument keeps the stored
value). -/
def upsert_booking_context (now : Nat) (customer_number : String)
    (pending_service_key pending_service_label : Option String)
    (pending_start_local : Option Nat) (ttl_minutes : Nat) (db : DB) : DB :=
  let expires := now + ttl_minutes
  if db.contexts.any fun c => decide (c.customer_number = customer_number) then
    { db with contexts := db.contexts.map fun c =>
        if c.customer_number = customer_number then
          { c with
            updated_ts := now
            expires_ts := expires
            pending_service_key := coalesce pending_service_key c.pending_service_key
            pending_service_label := coalesce pending_service_label c.pending_service_label
            pending_start_local := coalesce pending_start_local c.pending_start_local }
        else c }
  else
    { db with contexts := db.contexts ++
        [{ customer_number := customer_number
           updated_ts := now
           expires_ts := expires
           pending_service_key := pending_service_key
           pending_service_label := pending_service_label
           pending_start_local := pending_start_local }] }

/-- `clear_booking_context` (bookings_repo.py:681-687). -/
def clear_booking_context (customer_number : String) (db : DB) : DB :=
  { db with contexts := db.contexts.filter fun c =>
      decide (c.customer_number ≠ customer_number) }

/-- The view returned by `get_booking_context` (bookings_repo.py:672-676). -/
structure ContextView where
  pending_service_key : Option String
  pending_service_label : Option String
  pending_start_local : Option Nat
  deriving DecidableEq, Repr

/-- `get_booking_context` (bookings_repo.py:652-678): none if missing;
auto-clears and returns none if past expiry. -/
def get_booking_context (now : Nat) (customer_number : String) (db : DB) :
    DB × Option ContextView :=
  match db.contexts.find? fun c => decide (c.customer_number = customer_number) with
  | none => (db, none)
  | some c =>
    if c.expires_ts ≤ now then (clear_booking_context customer_number db, none)
    else (db, some
      { pending_service_key := c.pending_service_key
        pending_service_label := c.pending_service_label
        pending_start_local := c.pending_start_local })

/-- `get_request` (bookings_repo.py:333-360).  The SELECT omits the admin
columns; no caller reads them, so we return the full row.  The returned
dict has no `"public_ref"` key, so callers' `req.get("public_ref")` is
`None` and they fall back to `str(req["id"])`. -/
def get_request (request_id : Nat) (db : DB) : Option RequestRow :=
  db.requests.find? fun r => decide (r.id = request_id)

/-! ## Booking engine (`app/services/booking_engine.py`)

The engine manipulates message text with Python string methods.  We model
them by structural recursion over the character list of the string (Lean's
own `String.trim`/`String.toLower` are compiled by well-founded recursion
and would not evaluate inside the kernel). -/

/-- Python `str.lower()` (ASCII case folding suffices for the literals
involved). -/
def pyLower (s : String) : String := String.mk (s.data.map Char.toLower)

/-- Python `str.strip()`: removes leading and trailing whitespace. -/
def pyStrip (s : String) : String :=
  String.mk (((s.data.dropWhile Char.isWhitespace).reverse.dropWhile
    Char.isWhitespace).reverse)

/-- Python `str.startswith(pre)`. -/
def pyStartsWith (s pre : String) : Bool := pre.data.isPrefixOf s.data

/-- Python `s[n:]` on the character level (used for the button-command
argument after the prefix). -/
def pyDrop (s : String) : Nat → String := fun n => String.mk (s.data.drop n)

/-- Python `s.isdigit() and int(s)` combined: `some n` iff the string is
nonempty and all digits, else `none`. -/
def pyToNat? (s : String) : Option Nat :=
  if s.data ≠ [] ∧ s.data.all Char.isDigit then
    some (s.data.foldl (fun n c => n * 10 + (c.toNat - 48)) 0)
  else none

/-- Python `needle in hay` substring test, on character lists. -/
def listContainsSub (needle : List Char) : List Char → Bool
  | [] => needle.isEmpty
  | c :: tl => needle.isPrefixOf (c :: tl) || listContainsSub needle tl

/-- Python `needle in hay` substring test. -/
def containsSub (needle hay : String) : Bool := listContainsSub needle.data hay.data

/-- Modelled from the spec: `resolve_request_id` is called by
`booking_admin_api.py` (lines 61, 101, 135) and `webhook_handler.py`
(lines 296, 342) but is not defined in `app/db/bookings_repo.py` under
`src/`.  Per the spec (§4.4) it "accepts either the public ref or, as a
fallback, a numeric id string, returning the internal id or none".  The
schema under `src/` stores no public refs, so only the numeric-id fallback
can match. -/
def resolve_request_id (ref : String) (db : DB) : Option Nat :=
  match pyToNat? ref with
  | some n => if db.requests.any (fun r => decide (r.id = n)) then some n else none
  | none => none


/-- `SERVICE_CATALOG` (booking_engine.py:90-95): key ↦ (label, duration
in minutes). -/
def SERVICE_CATALOG (key : String) : Option (String × Nat) :=
  if key = "car_servicing" then some ("Car servicing", 120)
  else if key = "car_wash" then some ("Car wash", 60)
  else if key = "polish" then some ("Polishing", 240)
  else none

/-- `DEFAULT_HOLD_MINUTES` (booking_engine.py:97; settings default 10). -/
def DEFAULT_HOLD_MINUTES : Nat := 10

/-- `_is_confirmation` (booking_engine.py:145-147). -/
def is_confirmation (text : String) : Bool :=
  let t := pyLower (pyStrip text)
  t == "yes" || t == "y" || t == "confirm" || t == "confirmed" || t == "proceed" ||
    t == "ok" || t == "okay" || pyStartsWith t "yes "

/-- `_is_cancellation` (booking_engine.py:150-152). -/
def is_cancellation (text : String) : Bool :=
  let t := pyLower (pyStrip text)
  t == "no" || t == "n" || t == "cancel" || t == "stop" || t == "dont" ||
    t == "don\x27t" || pyStartsWith t "cancel"

/-- The structured result of the external NLU parse (`BookingParse`,
booking_engine.py:80-87).  `llm_parse_booking` is an external collaborator
(an LLM call); the orchestrator step takes its result as an input.
`confidence` lies in [0, 1]; the engine's only use of it is the comparison
against 0.55 (booking_engine.py:293), so we carry it exactly in hundredths
(0 ↦ 0, 0.55 ↦ 55, 1.0 ↦ 100). -/
structure BookingParse where
  intent : String
  service_key : Option String
  service_label : Option String
  start_local : Option Nat
  confidence : Nat
  deriving DecidableEq, Repr

/-- The loop body of `_suggest_alternative_slots` (booking_engine.py:41-54):
`fuel` counts the remaining iterations of
`for _ in range(int((search_days * 24 * 60) / step_minutes))`. -/
def suggestLoop (db : DB) (dur_min max_suggestions step_minutes : Nat) :
    Nat → Nat → List (Nat × Nat) → List (Nat × Nat)
  | 0, _, acc => acc
  | fuel + 1, cur, acc =>
    if weekday cur ≠ 6 then
      let e := cur + dur_min
      if 9 ≤ hourOf cur ∧ hourOf cur < 18 then
        if hourOf e < 18 ∨ (hourOf e = 18 ∧ minuteOf e = 0) then
          if is_window_available db cur e none then
            let acc1 := acc ++ [(cur, e)]
            if max_suggestions ≤ acc1.length then acc1
            else suggestLoop db dur_min max_suggestions step_minutes fuel (cur + step_minutes) acc1
          else suggestLoop db dur_min max_suggestions step_minutes fuel (cur + step_minutes) acc
        else suggestLoop db dur_min max_suggestions step_minutes fuel (cur + step_minutes) acc
      else suggestLoop db dur_min max_suggestions step_minutes fuel (cur + step_minutes) acc
    else suggestLoop db dur_min max_suggestions step_minutes fuel (cur + step_minutes) acc

/-- `_suggest_alternative_slots` (booking_engine.py:28-56).  The search
starts one step after the requested start.  An unknown service key would
raise `KeyError` at line 35; every caller first validates the key against
the catalog (booking_engine.py:300), so that case yields the empty list
here. -/
def suggest_alternative_slots (db : DB) (service_key : String)
    (requested_start : Nat) (max_suggestions step_minutes search_days : Nat) :
    List (Nat × Nat) :=
  match SERVICE_CATALOG service_key with
  | none => []
  | some (_, dur_min) =>
    suggestLoop db dur_min max_suggestions step_minutes
      ((search_days * 24 * 60) / step_minutes) (requested_start + step_minutes) []

/-- A Python runtime error raised (and left uncaught) by the engine; the
webhook handler's blanket `except` (webhook_handler.py:718-719) then drops
the turn, so no reply reaches the customer. -/
inductive PyErr
  /-- `req_id, public_ref = bookings_repo.create_booking_request(...)`
  (booking_engine.py:223) unpacks two values out of the bare `int` the
  function returns (bookings_repo.py:239): `TypeError: cannot unpack
  non-iterable int object`. -/
  | typeError
  /-- A dict subscript on a missing key, e.g. `draft["status"]`
  (booking_engine.py:265) on the row of `get_active_draft`, whose SELECT
  (bookings_repo.py:583) has no `status` column. -/
  | keyError (key : String)
  deriving DecidableEq, Repr

/-- The reply texts of `try_create_pending_booking`, one constructor per
string literal, carrying the data interpolated into the text. -/
inductive Reply
  /-- "That confirmation button is invalid. Please request the slot again."
  (booking_engine.py:173). -/
  | invalidConfirmButton
  /-- "That booking offer is no longer available. Please request the slot
  again." (booking_engine.py:178). -/
  | offerUnavailable
  /-- "That booking offer has expired/cancelled. Please request the slot
  again." (booking_engine.py:180). -/
  | offerExpired
  /-- "Cancelled." (booking_engine.py:191). -/
  | cancelledShort
  /-- "Okay — cancelled. If you want another slot, tell me your preferred
  date/time." (booking_engine.py:200 and 262). -/
  | cancelledAck
  /-- "That slot was just taken. Please suggest another date/time and
  I'll check again." (booking_engine.py:219). -/
  | slotJustTaken
  /-- "Sure — what service do you need (car servicing / car wash /
  polishing)?" (booking_engine.py:304). -/
  | askService
  /-- "Sure — what service do you need (car servicing / car wash /
  polishing) and what date & time?" (booking_engine.py:306). -/
  | askServiceAndTime
  /-- "Okay — what date and time would you like for {label}?"
  (booking_engine.py:318). -/
  | askTime (label : String)
  /-- "We're closed on Sundays. ..." (booking_engine.py:325). -/
  | closedSunday
  /-- "Our booking hours are Mon–Sat, 9am–6pm. ..." (booking_engine.py:327). -/
  | outsideHours
  /-- `_fmt_suggestions` (booking_engine.py:59-77): the
  "no longer available" text listing the alternative windows (empty list:
  the "could you share a preferred time range" variant). -/
  | suggestions (alts : List (Nat × Nat))
  /-- "Slot looks available: {label} {window} ... Tap Confirm to proceed or
  Cancel to stop." (booking_engine.py:271 and 364). -/
  | proposal (label : String) (start_ts end_ts : Nat)
  deriving DecidableEq, Repr

/-- The admin-notification payload (booking_engine.py:247-254).  The
source dict also carries `public_ref`, a variable that is never assigned
because the unpack at line 223 raises first; consequently no payload is
ever built by the code as it stands. -/
structure AdminPayload where
  request_id : Nat
  customer_number : String
  service_label : String
  start_ts : Nat
  end_ts : Nat
  deriving DecidableEq, Repr

/-- Outcome of one orchestrator turn: either the 4-tuple
`(handled, reply_text, request_id, admin_payload)` returned by
`try_create_pending_booking` (`reply := none` encodes the empty string of
the unhandled case), or an uncaught Python error. -/
inductive StepResult
  | ret (handled : Bool) (reply : Option Reply) (request_id : Option Nat)
      (admin_payload : Option AdminPayload)
  | err (e : PyErr)
  deriving DecidableEq, Repr

/-- The confirmation branch (booking_engine.py:206-255), shared by the
text path (`draft` from `get_active_draft`) and the button path (`draft`
from `get_draft_by_id`, with `user_text` rewritten to "yes").  On the
failed re-check: `release_hold`, then `mark_draft(..., "expired")`, then
the "just taken" reply.  Otherwise `create_booking_request` inserts the
pending row and returns a bare `int` (autocommit, conn.py:23), and the
caller's two-variable unpack at line 223 raises `TypeError`, so
`link_hold_to_request`, `mark_draft(..., "confirmed")`,
`clear_booking_context` and the reply are never reached. -/
def confirm_flow (now : Nat) (customer_number : String)
    (draft_id hold_id : Nat) (meta_phone_number_id service_key service_label : String)
    (start_ts end_ts : Nat) (db : DB) : DB × StepResult :=
  let db := (expire_old_holds now db).1
  let db := (expire_old_drafts now db).1
  if ¬ is_window_available db start_ts end_ts (some hold_id) then
    let db := release_hold hold_id db
    let db := mark_draft customer_number draft_id .expired db
    (db, .ret true (some .slotJustTaken) none none)
  else
    let db := (create_booking_request now meta_phone_number_id customer_number
      service_key service_label start_ts end_ts db).1
    (db, .err .typeError)

/-- `booking_related` keyword list (booking_engine.py:295). -/
def BOOKING_KEYWORDS : List String :=
  ["book", "booking", "slot", "appointment", "come", "available", "time", "date"]

/-- Stage 1 of `try_create_pending_booking` (booking_engine.py:279-367):
merge the external parse with the stored context, gate on intent and
confidence, ask for missing pieces, validate business hours, check
availability (on conflict: the `pending_start_local=None` upsert of line
330, whose COALESCE merge keeps the stored value, then the suggestions
reply), else pre-expire any active draft, create hold + draft, clear the
context, and return the proposal prompt. -/
def stage1 (now : Nat) (meta_phone_number_id customer_number user_text : String)
    (parse : BookingParse) (db : DB) : DB × StepResult :=
  let ctxPair := get_booking_context now customer_number db
  let db := ctxPair.1
  let ctx := ctxPair.2
  let ctx_service_key : Option String :=
    match ctx with
    | some c => c.pending_service_key
    | none => none
  let ctx_service_label : Option String :=
    match ctx with
    | some c => c.pending_service_label
    | none => none
  let ctx_start_local : Option Nat :=
    match ctx with
    | some c => c.pending_start_local
    | none => none
  -- booking_engine.py:285-288: restore service (and its label) from context
  let service_key := coalesce parse.service_key ctx_service_key
  let service_label0 :=
    match parse.service_key with
    | some _ => parse.service_label
    | none => if ctx_service_key.isSome then ctx_service_label else parse.service_label
  -- booking_engine.py:290-291: restore datetime from context
  let start_local := coalesce parse.start_local ctx_start_local
  if parse.intent ≠ "booking" ∨ parse.confidence < 55 then
    let t := pyLower user_text
    let booking_related := BOOKING_KEYWORDS.any fun w => containsSub w t
    let db := if booking_related then db else clear_booking_context customer_number db
    (db, .ret false none none none)
  else
    match service_key, SERVICE_CATALOG (service_key.getD "") with
    | some _, some (label, dur_min) =>
      let _ := service_label0
      match start_local with
      | none =>
        let db := upsert_booking_context now customer_number service_key (some label) none 30 db
        (db, .ret true (some (.askTime label)) none none)
      | some start_ts =>
        let end_ts := start_ts + dur_min
        if weekday start_ts = 6 then
          (db, .ret true (some .closedSunday) none none)
        else if hourOf start_ts < 9 ∨ hourOf start_ts ≥ 18 ∨ hourOf end_ts > 18 ∨
            (hourOf end_ts = 18 ∧ minuteOf end_ts > 0) then
          (db, .ret true (some .outsideHours) none none)
        else if ¬ is_window_available db start_ts end_ts none then
          let db := upsert_booking_context now customer_number none none none 30 db
          (db, .ret true (some (.suggestions
            (suggest_alternative_slots db (service_key.getD "") start_ts 3 30 7))) none none)
        else
          let prevPair := get_active_draft now customer_number db
          let db := prevPair.1
          let db :=
            match prevPair.2 with
            | some prev => mark_draft customer_number prev.id .expired (release_hold prev.hold_id db)
            | none => db
          let holdPair := create_hold now customer_number (service_key.getD "")
            start_ts end_ts DEFAULT_HOLD_MINUTES db
          let db := holdPair.1
          let db := (create_draft now meta_phone_number_id customer_number
            (service_key.getD "") label start_ts end_ts holdPair.2 DEFAULT_HOLD_MINUTES db).1
          let db := clear_booking_context customer_number db
          (db, .ret true (some (.proposal label start_ts end_ts)) none none)
    | _, _ =>
      -- booking_engine.py:300-306: service missing or unknown
      match start_local with
      | some t =>
        let db := upsert_booking_context now customer_number none none (some t) 30 db
        (db, .ret true (some .askService) none none)
      | none =>
        (db, .ret true (some .askServiceAndTime) none none)

/-- `try_create_pending_booking` (booking_engine.py:155-367): one
orchestrator turn.  `parse` stands for the external `llm_parse_booking`
result used by stage 1.  Reaps stale holds and drafts, handles the button
commands, then the text confirmation / cancellation / other cases against
the active draft, else falls through to stage 1. -/
def try_create_pending_booking (now : Nat)
    (meta_phone_number_id customer_number user_text : String)
    (parse : BookingParse) (db : DB) : DB × StepResult :=
  let db := (expire_old_holds now db).1
  let db := (expire_old_drafts now db).1
  if pyStartsWith user_text "__BOOK_CONFIRM__ " then
    -- booking_engine.py:170-186
    let draft_id_str := pyStrip (pyDrop user_text 17)
    match pyToNat? draft_id_str with
    | none => (db, .ret true (some .invalidConfirmButton) none none)
    | some draft_id =>
      match get_draft_by_id draft_id db with
      | none => (db, .ret true (some .offerUnavailable) none none)
      | some d =>
        if d.customer_number ≠ customer_number then
          (db, .ret true (some .offerUnavailable) none none)
        else if d.status ≠ .proposed then
          (db, .ret true (some .offerExpired) none none)
        else
          -- `user_text = "yes"`: falls into the confirmation branch below
          confirm_flow now customer_number d.id d.hold_id d.meta_phone_number_id
            d.service_key d.service_label d.start_ts d.end_ts db
  else if pyStartsWith user_text "__BOOK_CANCEL__ " then
    -- booking_engine.py:188-200
    let draft_id_str := pyStrip (pyDrop user_text 16)
    match pyToNat? draft_id_str with
    | none => (db, .ret true (some .cancelledShort) none none)
    | some draft_id =>
      let db :=
        match get_draft_by_id draft_id db with
        | some d =>
          if d.customer_number = customer_number ∧ d.status = .proposed then
            mark_draft customer_number d.id .cancelled (release_hold d.hold_id db)
          else db
        | none => db
      let db := clear_booking_context customer_number db
      (db, .ret true (some .cancelledAck) none none)
  else
    let draftPair := get_active_draft now customer_number db
    let db := draftPair.1
    match draftPair.2 with
    | some a =>
      if is_confirmation user_text then
        confirm_flow now customer_number a.id a.hold_id a.meta_phone_number_id
          a.service_key a.service_label a.start_ts a.end_ts db
      else if is_cancellation user_text then
        -- booking_engine.py:257-262
        let db := release_hold a.hold_id db
        let db := mark_draft customer_number a.id .cancelled db
        let db := clear_booking_context customer_number db
        (db, .ret true (some .cancelledAck) none none)
      else
        -- booking_engine.py:265 evaluates `draft["status"]`, but the row
        -- returned by get_active_draft (bookings_repo.py:583-602) has no
        -- "status" key: Python raises KeyError and the turn dies before
        -- the re-presentation reply (and before stage 1 can ever run for a
        -- customer holding an active draft).
        (db, .err (.keyError "status"))
    | none => stage1 now meta_phone_number_id customer_number user_text parse db

/-! ## Admin endpoints (`app/routers/booking_admin_api.py`) -/

/-- Result of the approve endpoint: `ok` carries the customer
notifications issued by `send_whatsapp_message` (exactly one on success);
`notFound` is HTTP 404, `conflict` HTTP 409 (raised before any
notification). -/
inductive AdminResult
  /-- `(meta_phone_number_id, customer_number)` recipients of
  `send_whatsapp_message` (booking_admin_api.py:91). -/
  | ok (notified : List (String × String))
  | notFound
  | conflict
  deriving DecidableEq, Repr

/-- `approve` (booking_admin_api.py:55-92): resolve the reference, 404 if
unknown, `decide_request(..., "approved", ...)`, 409 if it returns false
(raised before any message is sent), else release the request's hold and
send exactly one customer notification. -/
def approve (now : Nat) (ref : String) (admin_number : String)
    (admin_note : Option String) (db : DB) : DB × AdminResult :=
  match resolve_request_id ref db with
  | none => (db, .notFound)
  | some req_id =>
    match get_request req_id db with
    | none => (db, .notFound)
    | some req =>
      let decPair := decide_request now req_id admin_number .approved admin_note db
      let db := decPair.1
      if decPair.2 then
        let db :=
          match find_hold_by_request req_id db with
          | some hold_id => release_hold hold_id db
          | none => db
        (db, .ok [(req.meta_phone_number_id, req.customer_number)])
      else
        (db, .conflict)

/-! ## Concrete scenario fixtures

`dbA`: one customer `"c"` with a proposed draft (id 1) backed by an active
hold (id 1) on the window [540, 600) (Monday 09:00-10:00), plus a live
booking context remembering a pending start time.  All expiry timestamps
lie in the future of `now = 100`, so the reapers are no-ops. -/

def hold1 : HoldRow := ⟨1, 0, 1000, "c", "car_wash", 540, 600, none, .active⟩

def draft1 : DraftRow := ⟨1, 0, 1000, "m", "c", "car_wash", "Car wash", 540, 600, 1, .proposed⟩

def ctx1 : ContextRow := ⟨"c", 0, 1000, none, none, some 540⟩

def dbA : DB := ⟨[], [hold1], [draft1], [ctx1], 1, 2, 2⟩

/-- A parse result for turns that never reach stage 1. -/
def parse0 : BookingParse := ⟨"other", none, none, none, 0⟩

/-- `dbA` plus a second active hold of another customer on the same
window, so the confirmation re-check (which ignores hold 1) fails. -/
def hold2 : HoldRow := ⟨2, 0, 2000, "x", "car_wash", 540, 600, none, .active⟩

def dbC : DB := ⟨[], [hold1, hold2], [draft1], [ctx1], 1, 3, 2⟩

/-! ## Theorems -/

/-- C3: `is_window_available(start, end, ignoreHoldID?)` returns true iff
no `approved` request and no `active` hold (other than the ignored one,
when given) overlaps the half-open window: `other.start < end ∧ start <
other.end`. -/
theorem is_window_available_iff (db : DB) (s e : Nat) (ig : Option Nat) :
    is_window_available db s e ig = true ↔
      ((∀ r ∈ db.requests, r.status = .approved → ¬(r.start_ts < e ∧ s < r.end_ts)) ∧
       (∀ h ∈ db.holds, h.status = .active → ig ≠ some h.id →
          ¬(h.start_ts < e ∧ s < h.end_ts))) := by
  unfold is_window_available
  by_cases hA : (0 < db.requests.countP fun r =>
      decide (r.status = .approved ∧ r.start_ts < e ∧ r.end_ts > s))
  · simp only [gt_iff_lt, hA, if_true, Bool.false_eq_true, false_iff]
    rw [List.countP_pos_iff] at hA
    obtain ⟨r, hrm, hp⟩ := hA
    simp only [decide_eq_true_eq] at hp
    rintro ⟨h1, _⟩
    exact h1 r hrm hp.1 ⟨hp.2.1, hp.2.2⟩
  · simp only [gt_iff_lt, hA, if_false]
    have hA0 : ∀ r ∈ db.requests, r.status = .approved → ¬(r.start_ts < e ∧ s < r.end_ts) := by
      rw [Nat.not_lt, Nat.le_zero, List.countP_eq_zero] at hA
      intro r hr hst hov
      exact hA r hr (by simp only [decide_eq_true_eq]; exact ⟨hst, hov.1, hov.2⟩)
    cases ig with
    | none =>
      rw [decide_eq_true_eq, List.countP_eq_zero]
      constructor
      · intro h
        refine ⟨hA0, fun hh hm hact _ hov => ?_⟩
        exact h hh hm (by simp only [decide_eq_true_eq]; exact ⟨hact, hov.1, hov.2⟩)
      · rintro ⟨_, hB⟩
        intro hh hm hd
        simp only [decide_eq_true_eq] at hd
        exact hB hh hm hd.1 (fun hc => Option.noConfusion hc) ⟨hd.2.1, hd.2.2⟩
    | some i =>
      rw [decide_eq_true_eq, List.countP_eq_zero]
      constructor
      · intro h
        refine ⟨hA0, fun hh hm hact hneq hov => ?_⟩
        have hne : hh.id ≠ i := fun he => hneq (congrArg Option.some he.symm)
        exact h hh hm (by simp only [decide_eq_true_eq]; exact ⟨hact, hne, hov.1, hov.2⟩)
      · rintro ⟨_, hB⟩
        intro hh hm hd
        simp only [decide_eq_true_eq] at hd
        exact hB hh hm hd.1 (fun hc => hd.2.1 (Option.some.inj hc).symm) ⟨hd.2.2.1, hd.2.2.2⟩

/-- C1: the spec claims `CreateRequest` returns a pair `(id, publicRef)`
with a short random token stored verbatim alongside the request.  The code
has no such token: `create_booking_request` stores exactly the caller's
arguments plus `created_ts`, the id and the `pending` status — nothing
random — and returns the bare internal id, so the only reference a caller
can show is the internal id itself; the confirmation path, which unpacks
two values from that id (booking_engine.py:223), dies with `TypeError`. -/
theorem C1_create_booking_request_returns_bare_id :
    create_booking_request 100 "m" "c" "car_wash" "Car wash" 540 600 DB.empty =
      (⟨[⟨1, 100, "m", "c", "car_wash", "Car wash", 540, 600, .pending, none, none, none⟩],
        [], [], [], 2, 1, 1⟩, 1) ∧
    (try_create_pending_booking 100 "m" "c" "yes" parse0 dbA).2 = .err .typeError := by
  constructor <;> rfl

/-- C5: on a recognized confirmation of an active draft, the orchestrator
re-checks availability ignoring the draft's own hold.  If the re-check
fails it marks the draft `expired`, sets its hold to `released` (the spec
says "expires" the hold) and creates no request.  If the re-check
succeeds, the code inserts the pending request and then raises `TypeError`
unpacking the bare int returned by `create_booking_request`
(booking_engine.py:223), so the hold is never linked (`request_id` stays
`none`), the draft stays `proposed`, the context is not cleared, and no
"sent for approval" reply or admin payload is produced. -/
theorem C5_confirmation_paths :
    try_create_pending_booking 100 "m" "c" "yes" parse0 dbA =
      (⟨[⟨1, 100, "m", "c", "car_wash", "Car wash", 540, 600, .pending, none, none, none⟩],
        [hold1], [draft1], [ctx1], 2, 2, 2⟩, .err .typeError) ∧
    try_create_pending_booking 100 "m" "c" "yes" parse0 dbC =
      (⟨[], [⟨1, 0, 1000, "c", "car_wash", 540, 600, none, .released⟩, hold2],
        [⟨1, 0, 1000, "m", "c", "car_wash", "Car wash", 540, 600, 1, .expired⟩],
        [ctx1], 1, 3, 2⟩, .ret true (some .slotJustTaken) none none) := by
  constructor <;> rfl

/-- C2: the spec makes `cancelled` a storable terminal request status and
`CancelRequest` valid from `approved`.  In the code the `booking_requests`
CHECK constraint (bookings_repo.py:41) rejects the string `'cancelled'`,
even though the repository's own admin API offers it as a list filter
(booking_admin_api.py:49) and its cancel endpoint calls a
`bookings_repo.cancel_request` that the module never defines
(booking_admin_api.py:143). -/
theorem C2_cancelled_not_representable :
    requestStatusAllowed "cancelled" = false ∧ "cancelled" ∈ adminAllowedStatusFilters := by
  exact ⟨rfl, by decide⟩

/-- C7: a customer holding a `proposed` draft who texts a different slot
never reaches the supersede logic: the turn dies with `KeyError("status")`
at booking_engine.py:265, because the row from `get_active_draft` has no
`status` key.  The first draft stays `proposed` and its hold `active`; no
draft is cancelled and no new draft is created. -/
theorem C7_second_proposal_raises_keyerror :
    try_create_pending_booking 100 "m" "c" "can I do 2pm instead"
        ⟨"booking", some "car_wash", none, some 780, 100⟩ dbA =
      (dbA, .err (.keyError "status")) ∧
    dbA.drafts = [draft1] ∧ draft1.status = .proposed ∧
    dbA.holds = [hold1] ∧ hold1.status = .active := by
  refine ⟨?_, rfl, rfl, rfl, rfl⟩
  rfl

/-- C10: the confirmation / cancellation token sets match the claim, but a
text that is neither does not re-present the proposal: with an active
draft the turn dies with `KeyError("status")` at booking_engine.py:265
(the row from `get_active_draft` lacks the key), leaving state unchanged
but producing no reply. -/
theorem C10_reply_tokens_and_other_text :
    is_confirmation "yes" = true ∧ is_confirmation " YES " = true ∧
    is_confirmation "yes please" = true ∧ is_confirmation "Okay" = true ∧
    is_confirmation "proceed" = true ∧ is_confirmation "maybe" = false ∧
    is_cancellation "no" = true ∧ is_cancellation "CANCEL tomorrow" = true ∧
    is_cancellation "don\x27t" = true ∧ is_cancellation "stop" = true ∧
    is_cancellation "maybe" = false ∧
    try_create_pending_booking 100 "m" "c" "maybe" parse0 dbA =
      (dbA, .err (.keyError "status")) := by
  refine ⟨?_, ?_, ?_, ?_, ?_, ?_, ?_, ?_, ?_, ?_, ?_, ?_⟩ <;> rfl

/-- Among rows with pairwise distinct ids, at most one satisfies a
predicate that pins the id (`SERIAL PRIMARY KEY` well-formedness). -/
theorem requests_countP_le_one (l : List RequestRow)
    (hw : (l.map fun r => r.id).Nodup) (rid : Nat) (p : RequestRow → Bool)
    (hp : ∀ r, p r = true → r.id = rid) : l.countP p ≤ 1 := by
  induction l with
  | nil => simp
  | cons a tl ih =>
    simp only [List.map_cons, List.nodup_cons, List.mem_map] at hw
    rw [List.countP_cons]
    by_cases hpa : p a = true
    · have htl : tl.countP p = 0 := by
        rw [List.countP_eq_zero]
        intro b hb hpb
        exact hw.1 ⟨b, hb, (hp b hpb).trans (hp a hpa).symm⟩
      simp [hpa, htl]
    · have hz : (if p a then 1 else 0) = 0 := by simp [hpa]
      rw [hz]
      simpa using ih hw.2

/-- Among rows with pairwise distinct ids, `find?` by id returns the member
itself (`SELECT ... WHERE id = %s` on a primary key). -/
theorem requests_find_eq (l : List RequestRow)
    (hw : (l.map fun r => r.id).Nodup) (r : RequestRow) (hr : r ∈ l) :
    (l.find? fun x => decide (x.id = r.id)) = some r := by
  induction l with
  | nil => cases hr
  | cons a tl ih =>
    simp only [List.map_cons, List.nodup_cons, List.mem_map] at hw
    rcases List.mem_cons.mp hr with rfl | hmem
    · simp [List.find?_cons]
    · have hne : a.id ≠ r.id := fun he => hw.1 ⟨r, hmem, he.symm⟩
      rw [List.find?_cons_of_neg _ (by simpa using hne)]
      exact ih hw.2 hmem

/-- Approving a pending request through the endpoint succeeds with exactly
one customer notification, and a second approval of the same reference
returns Conflict with no notification. -/
theorem approve_twice_aux (db : DB) (now now2 : Nat) (rid : Nat)
    (admin admin2 : String) (note note2 : Option String)
    (hw : (db.requests.map fun r => r.id).Nodup)
    (ref : String) (r : RequestRow) (hr : r ∈ db.requests)
    (hid : r.id = rid) (hst : r.status = .pending)
    (hres : resolve_request_id ref db = some rid) :
    (approve now ref admin note db).2 = .ok [(r.meta_phone_number_id, r.customer_number)] ∧
    (approve now2 ref admin2 note2 (approve now ref admin note db).1).2 = .conflict := by
  classical
  have hp : ∀ x : RequestRow,
      (decide (x.id = rid ∧ x.status = .pending)) = true → x.id = rid := by
    intro x h
    exact (of_decide_eq_true h).1
  have hfind : get_request rid db = some r := by
    unfold get_request
    have := requests_find_eq db.requests hw r hr
    simp only [hid] at this
    exact this
  have hcnt1 : (db.requests.countP fun x =>
      decide (x.id = rid ∧ x.status = .pending)) = 1 := by
    have hle := requests_countP_le_one db.requests hw rid _ hp
    have hpos : 0 < db.requests.countP fun x =>
        decide (x.id = rid ∧ x.status = .pending) := by
      rw [List.countP_pos_iff]
      exact ⟨r, hr, decide_eq_true ⟨hid, hst⟩⟩
    omega
  have happrove1 : approve now ref admin note db =
      ((match find_hold_by_request rid
          (decide_request now rid admin .approved note db).1 with
        | some hid2 => release_hold hid2 (decide_request now rid admin .approved note db).1
        | none => (decide_request now rid admin .approved note db).1),
       .ok [(r.meta_phone_number_id, r.customer_number)]) := by
    unfold approve
    rw [hres]
    dsimp only
    rw [hfind]
    dsimp only
    unfold decide_request
    dsimp only
    rw [hcnt1]
    rfl
  have hpt : pyToNat? ref = some rid := by
    unfold resolve_request_id at hres
    cases hx : pyToNat? ref with
    | none => rw [hx] at hres; cases hres
    | some n =>
      rw [hx] at hres
      by_cases hany : (db.requests.any fun x => decide (x.id = n)) = true
      · simp only [hany, if_true] at hres
        exact congrArg some (Option.some.inj hres)
      · simp only [Bool.not_eq_true] at hany
        simp only [hany, Bool.false_eq_true, if_false] at hres
        cases hres
  refine ⟨by rw [happrove1], ?_⟩
  set db2 := (approve now ref admin note db).1 with hdb2
  have hreq1 : db2.requests = db.requests.map fun x =>
      if x.id = rid ∧ x.status = .pending then
        { x with status := Decision.approved.toStatus, admin_number := some admin,
                 admin_decision_ts := some now, admin_note := note }
      else x := by
    rw [hdb2, happrove1]
    cases find_hold_by_request rid (decide_request now rid admin .approved note db).1 with
    | none => rfl
    | some x => rfl
  have hfr_mem : (if r.id = rid ∧ r.status = .pending then
      { r with status := Decision.approved.toStatus, admin_number := some admin,
               admin_decision_ts := some now, admin_note := note }
      else r) ∈ db2.requests := by
    rw [hreq1]
    exact List.mem_map_of_mem _ hr
  rw [if_pos ⟨hid, hst⟩] at hfr_mem
  have hids : (db2.requests.map fun x => x.id) = db.requests.map fun x => x.id := by
    rw [hreq1, List.map_map]
    apply List.map_congr_left
    intro a _
    by_cases hca : a.id = rid ∧ a.status = .pending
    · simp [hca]
    · simp [hca]
  have hw2 : (db2.requests.map fun x => x.id).Nodup := by
    rw [hids]
    exact hw
  have hres2 : resolve_request_id ref db2 = some rid := by
    unfold resolve_request_id
    rw [hpt]
    have hany2 : (db2.requests.any fun x => decide (x.id = rid)) = true := by
      rw [List.any_eq_true]
      exact ⟨_, hfr_mem, decide_eq_true (by simp [hid])⟩
    simp [hany2]
  have hfind2 : get_request rid db2 = some
      { r with status := Decision.approved.toStatus, admin_number := some admin,
               admin_decision_ts := some now, admin_note := note } := by
    unfold get_request
    have := requests_find_eq db2.requests hw2 _ hfr_mem
    simp only [hid] at this ⊢
    exact this
  have hcnt2 : (db2.requests.countP fun x =>
      decide (x.id = rid ∧ x.status = .pending)) = 0 := by
    rw [hreq1, List.countP_eq_zero]
    intro b hb
    rw [List.mem_map] at hb
    obtain ⟨a, _, rfl⟩ := hb
    by_cases hca : a.id = rid ∧ a.status = .pending
    · simp [hca, Decision.toStatus]
    · simp [hca]
  unfold approve
  rw [hres2]
  dsimp only
  rw [hfind2]
  dsimp only
  unfold decide_request
  dsimp only
  rw [hcnt2]
  rfl

/-- C6: `decide_request` is a conditional update: it returns true — and
records decision, actor and decision time — iff a request with the given
id is currently `pending` (given distinct request ids, as `SERIAL PRIMARY
KEY` guarantees); on an already-decided request it returns false and
leaves the store unchanged, and at the endpoint level approving the same
reference twice yields `ok` with exactly one customer notification and
then `conflict` with none. -/
theorem C6_decide_request_conditional (db : DB) (now now2 : Nat) (rid : Nat)
    (admin admin2 : String) (dec : Decision) (note note2 : Option String)
    (hw : (db.requests.map fun r => r.id).Nodup) :
    ((decide_request now rid admin dec note db).2 = true ↔
       ∃ r ∈ db.requests, r.id = rid ∧ r.status = .pending) ∧
    ((decide_request now rid admin dec note db).2 = false →
       (decide_request now rid admin dec note db).1 = db) ∧
    (∀ r ∈ db.requests, r.id = rid → r.status = .pending →
       { r with status := dec.toStatus, admin_number := some admin,
                admin_decision_ts := some now, admin_note := note } ∈
         (decide_request now rid admin dec note db).1.requests) ∧
    (∀ (ref : String) (r : RequestRow), r ∈ db.requests → r.id = rid →
       r.status = .pending → resolve_request_id ref db = some rid →
       (approve now ref admin note db).2 =
         .ok [(r.meta_phone_number_id, r.customer_number)] ∧
       (approve now2 ref admin2 note2 (approve now ref admin note db).1).2 = .conflict) := by
  have hp : ∀ r : RequestRow,
      (decide (r.id = rid ∧ r.status = .pending)) = true → r.id = rid := by
    intro r h
    exact (of_decide_eq_true h).1
  have hle := requests_countP_le_one db.requests hw rid _ hp
  refine ⟨?_, ?_, ?_, ?_⟩
  · unfold decide_request
    simp only [decide_eq_true_eq]
    constructor
    · intro hcnt
      have hpos : 0 < db.requests.countP fun r =>
          decide (r.id = rid ∧ r.status = .pending) := by omega
      rw [List.countP_pos_iff] at hpos
      obtain ⟨r, hr, hpr⟩ := hpos
      exact ⟨r, hr, of_decide_eq_true hpr⟩
    · rintro ⟨r, hr, hid, hst⟩
      have hpos : 0 < db.requests.countP fun r =>
          decide (r.id = rid ∧ r.status = .pending) := by
        rw [List.countP_pos_iff]
        exact ⟨r, hr, decide_eq_true ⟨hid, hst⟩⟩
      omega
  · unfold decide_request
    simp only [decide_eq_false_iff_not]
    intro hne
    have hz : db.requests.countP (fun r =>
        decide (r.id = rid ∧ r.status = .pending)) = 0 := by omega
    rw [List.countP_eq_zero] at hz
    have hmap : (db.requests.map fun r =>
        if r.id = rid ∧ r.status = .pending then
          { r with status := dec.toStatus, admin_number := some admin,
                   admin_decision_ts := some now, admin_note := note }
        else r) = db.requests := by
      have := List.map_congr_left (l := db.requests)
        (f := fun r => if r.id = rid ∧ r.status = .pending then
          { r with status := dec.toStatus, admin_number := some admin,
                   admin_decision_ts := some now, admin_note := note } else r)
        (g := id) ?_
      · simpa using this
      · intro a ha
        have : ¬(a.id = rid ∧ a.status = .pending) := by
          intro hc
          exact hz a ha (decide_eq_true hc)
        simp [this]
    simp only [hmap]
  · intro r hr hid hst
    unfold decide_request
    have := List.mem_map_of_mem (f := fun r =>
        if r.id = rid ∧ r.status = .pending then
          { r with status := dec.toStatus, admin_number := some admin,
                   admin_decision_ts := some now, admin_note := note }
        else r) hr
    simpa [hid, hst] using this
  · intro ref r hr hid hst hres
    exact approve_twice_aux db now now2 rid admin admin2 note note2 hw ref r hr hid hst hres

/-- Soundness of the search loop of `_suggest_alternative_slots`: every
collected slot that was not already in the accumulator lies on a step
boundary within the remaining fuel, avoids Sunday, satisfies the
business-hours checks exactly as coded, spans the service duration, and
passes the availability check. -/
theorem suggestLoop_mem (db : DB) (dur max step : Nat) :
    ∀ (fuel : Nat) (cur : Nat) (acc : List (Nat × Nat)) (s e : Nat),
      (s, e) ∈ suggestLoop db dur max step fuel cur acc →
      (s, e) ∈ acc ∨ ∃ j, j < fuel ∧ s = cur + step * j ∧
        weekday s ≠ 6 ∧ (9 ≤ hourOf s ∧ hourOf s < 18) ∧
        (hourOf e < 18 ∨ (hourOf e = 18 ∧ minuteOf e = 0)) ∧
        e = s + dur ∧ is_window_available db s e none = true := by
  intro fuel
  induction fuel with
  | zero =>
    intro cur acc s e hmem
    exact Or.inl hmem
  | succ n ih =>
    intro cur acc s e hmem
    rw [suggestLoop] at hmem
    dsimp only at hmem
    have hnext : (s, e) ∈ suggestLoop db dur max step n (cur + step) acc →
        (s, e) ∈ acc ∨ ∃ j, j < n + 1 ∧ s = cur + step * j ∧
          weekday s ≠ 6 ∧ (9 ≤ hourOf s ∧ hourOf s < 18) ∧
          (hourOf e < 18 ∨ (hourOf e = 18 ∧ minuteOf e = 0)) ∧
          e = s + dur ∧ is_window_available db s e none = true := by
      intro hm
      rcases ih (cur + step) acc s e hm with h | ⟨j, hj, hs, hrest⟩
      · exact Or.inl h
      · refine Or.inr ⟨j + 1, by omega, ?_, hrest⟩
        rw [hs]
        ring
    split at hmem
    next hwd =>
      split at hmem
      next hh9 =>
        split at hmem
        next hhe =>
          split at hmem
          next havail =>
            split at hmem
            next hstop =>
              rcases List.mem_append.mp hmem with h | h
              · exact Or.inl h
              · have hpe := List.mem_singleton.mp h
                injection hpe with hs1 he1
                subst hs1
                subst he1
                exact Or.inr ⟨0, by omega, by simp, hwd, hh9, hhe, rfl, havail⟩
            next hstop =>
              rcases ih (cur + step) _ s e hmem with h | h
              · rcases List.mem_append.mp h with h2 | h2
                · exact Or.inl h2
                · have hpe := List.mem_singleton.mp h2
                  injection hpe with hs1 he1
                  subst hs1
                  subst he1
                  exact Or.inr ⟨0, by omega, by simp, hwd, hh9, hhe, rfl, havail⟩
              · rcases h with ⟨j, hj, hs, hrest⟩
                refine Or.inr ⟨j + 1, by omega, ?_, hrest⟩
                rw [hs]
                ring
          next havail => exact hnext hmem
        next hhe => exact hnext hmem
      next hh9 => exact hnext hmem
    next hwd => exact hnext hmem

/-- The search loop never grows the accumulator beyond `max_suggestions`. -/
theorem suggestLoop_length (db : DB) (dur max step : Nat) :
    ∀ (fuel : Nat) (cur : Nat) (acc : List (Nat × Nat)),
      acc.length < max →
      (suggestLoop db dur max step fuel cur acc).length ≤ max := by
  intro fuel
  induction fuel with
  | zero =>
    intro cur acc h
    rw [suggestLoop]
    omega
  | succ n ih =>
    intro cur acc hlt
    rw [suggestLoop]
    dsimp only
    split
    next hwd =>
      split
      next h9 =>
        split
        next he =>
          split
          next hav =>
            split
            next hstop =>
              have hlen : (acc ++ [(cur, cur + dur)]).length = acc.length + 1 := by simp
              omega
            next hstop =>
              apply ih
              have hlen : (acc ++ [(cur, cur + dur)]).length = acc.length + 1 := by simp
              omega
          next hav => exact ih _ _ hlt
        next he => exact ih _ _ hlt
      next h9 => exact ih _ _ hlt
    next hwd => exact ih _ _ hlt

/-- C9: at the defaults (3 suggestions, 30-minute step, 7-day horizon),
every suggested slot lies on a 30-minute step strictly after the requested
start and at most 7 days (336 steps) later, is not on Sunday, starts
within [09:00, 18:00) of its day, spans the catalog duration of the
service, ends within (09:00, 18:00] (exactly 18:00 allowed, never later),
passes the availability check, and at most 3 slots are returned. -/
theorem C9_suggest_alternative_slots_sound (db : DB) (sk : String) (t s e : Nat)
    (hmem : (s, e) ∈ suggest_alternative_slots db sk t 3 30 7) :
    (∃ k, 1 ≤ k ∧ k ≤ 336 ∧ s = t + 30 * k) ∧
    weekday s ≠ 6 ∧
    (540 ≤ s % 1440 ∧ s % 1440 < 1080) ∧
    (∃ label dur, SERVICE_CATALOG sk = some (label, dur) ∧ e = s + dur) ∧
    (540 < e % 1440 ∧ e % 1440 ≤ 1080) ∧
    is_window_available db s e none = true ∧
    (suggest_alternative_slots db sk t 3 30 7).length ≤ 3 := by
  unfold suggest_alternative_slots at hmem ⊢
  cases hcat : SERVICE_CATALOG sk with
  | none =>
    rw [hcat] at hmem
    cases hmem
  | some p =>
    obtain ⟨label, dur⟩ := p
    rw [hcat] at hmem
    have hfuel : 7 * 24 * 60 / 30 = 336 := by norm_num
    rw [hfuel] at hmem
    have hdur : 1 ≤ dur ∧ dur ≤ 240 := by
      unfold SERVICE_CATALOG at hcat
      split at hcat
      · injection hcat with hp
        injection hp with h1 h2
        omega
      · split at hcat
        · injection hcat with hp
          injection hp with h1 h2
          omega
        · split at hcat
          · injection hcat with hp
            injection hp with h1 h2
            omega
          · cases hcat
    have hm := suggestLoop_mem db dur 3 30 336 (t + 30) [] s e hmem
    rcases hm with h | ⟨j, hj, hs, hwd, hh9, hhe, he, hav⟩
    · cases h
    · have hh9a : 9 ≤ s % 1440 / 60 ∧ s % 1440 / 60 < 18 := hh9
      have hhea : e % 1440 / 60 < 18 ∨ (e % 1440 / 60 = 18 ∧ e % 60 = 0) := hhe
      have hsmod : 540 ≤ s % 1440 ∧ s % 1440 < 1080 := by
        constructor <;> omega
      have hemod : 540 < e % 1440 ∧ e % 1440 ≤ 1080 := by
        constructor <;> omega
      refine ⟨⟨j + 1, by omega, by omega, by omega⟩, hwd, hsmod,
        ⟨label, dur, rfl, he⟩, hemod, hav, ?_⟩
      dsimp only
      rw [hfuel]
      exact suggestLoop_length db dur 3 30 336 (t + 30) [] (by simp)

/-- Witness for C9: on the empty store, requesting car_wash at Monday
09:00 (minute 540), the first suggested slot is (570, 630). -/
theorem C9_witness :
    (570, 630) ∈ suggest_alternative_slots DB.empty "car_wash" 540 3 30 7 ∧
    weekday 570 ≠ 6 ∧
    is_window_available DB.empty 570 630 none = true ∧
    (suggest_alternative_slots DB.empty "car_wash" 540 3 30 7).length ≤ 3 := by
  have hmem : (570, 630) ∈ suggest_alternative_slots DB.empty "car_wash" 540 3 30 7 := by
    decide
  have h := C9_suggest_alternative_slots_sound DB.empty "car_wash" 540 570 630 hmem
  exact ⟨hmem, h.2.1, h.2.2.2.2.2.1, h.2.2.2.2.2.2⟩

/-- Fixture for the C6 witness: a store holding the single pending request
with id 1. -/
def dbW : DB :=
  ⟨[⟨1, 0, "m", "c", "car_wash", "Car wash", 540, 600, .pending, none, none, none⟩],
   [], [], [], 2, 1, 1⟩

/-- Witness for C6 at the concrete store `dbW`, reference "1". -/
theorem C6_witness :
    (approve 100 "1" "a1" none dbW).2 = .ok [("m", "c")] ∧
    (approve 200 "1" "a2" none (approve 100 "1" "a1" none dbW).1).2 = .conflict := by
  have h := (C6_decide_request_conditional dbW 100 200 1 "a1" "a2" .approved none none
      (by decide)).2.2.2 "1"
      ⟨1, 0, "m", "c", "car_wash", "Car wash", 540, 600, .pending, none, none, none⟩
      (by decide) rfl rfl (by decide)
  exact h

/-- Fixture for C8: customer `"c"` has a context remembering the pending
start time 540 but no draft; another customer's active hold occupies
[540, 600), so the availability check fails. -/
def holdX : HoldRow := ⟨1, 0, 2000, "x", "car_wash", 540, 600, none, .active⟩

def ctxD : ContextRow := ⟨"c", 0, 1000, none, none, some 540⟩

def dbE : DB := ⟨[], [holdX], [], [ctxD], 1, 2, 1⟩

/-- C8: when service and start time are known, business hours pass and the
availability check fails, the orchestrator returns alternative-slot
suggestions — but the `pending_start_local=None` upsert at
booking_engine.py:330 goes through the COALESCE merge (bookings_repo.py:644),
which keeps the stored value, so after the turn the context still carries
the old pending start time (only the TTL was refreshed). -/
theorem C8_conflict_path_retains_pending_start :
    try_create_pending_booking 100 "m" "c" "car wash please"
        ⟨"booking", some "car_wash", none, none, 100⟩ dbE =
      (⟨[], [holdX], [], [⟨"c", 100, 130, none, none, some 540⟩], 1, 2, 1⟩,
       .ret true (some (.suggestions [(600, 660), (630, 690), (660, 720)])) none none) ∧
    ((try_create_pending_booking 100 "m" "c" "car wash please"
        ⟨"booking", some "car_wash", none, none, 100⟩ dbE).1.contexts.map
      fun c => c.pending_start_local) = [some 540] := by
  constructor <;> rfl

/-- §8 "Single active draft": at most one draft with status `proposed`
exists per customer. -/
def singleDraftInv (db : DB) : Prop :=
  ∀ c : String,
    db.drafts.countP (fun d => decide (d.customer_number = c ∧ d.status = .proposed)) ≤ 1

theorem countP_map_le {α : Type} (f : α → α) (p : α → Bool) :
    ∀ l : List α, (∀ a ∈ l, p (f a) = true → p a = true) →
      (l.map f).countP p ≤ l.countP p := by
  intro l h
  induction l with
  | nil => simp
  | cons a tl ih =>
    simp only [List.map_cons, List.countP_cons]
    have ih2 := ih fun b hb hp => h b (List.mem_cons_of_mem a hb) hp
    by_cases hpa : p (f a) = true
    · have hpa2 := h a (List.mem_cons_self a tl) hpa
      simp only [hpa, hpa2, if_true]
      omega
    · simp only [Bool.not_eq_true] at hpa
      simp only [hpa, Bool.false_eq_true, if_false]
      by_cases hqa : p a = true
      · simp only [hqa, if_true]
        omega
      · simp only [Bool.not_eq_true] at hqa
        simp only [hqa, Bool.false_eq_true, if_false]
        omega

theorem singleDraftInv_drafts_eq {db db2 : DB} (h : db2.drafts = db.drafts)
    (hinv : singleDraftInv db) : singleDraftInv db2 := by
  intro c
  rw [h]
  exact hinv c

theorem singleDraftInv_mark_draft (cust : String) (did : Nat) (st : DraftStatus)
    (hst : st ≠ .proposed) (db : DB) (hinv : singleDraftInv db) :
    singleDraftInv (mark_draft cust did st db) := by
  intro c
  unfold mark_draft
  refine le_trans (countP_map_le _ _ _ ?_) (hinv c)
  intro a _ hp
  by_cases hcond : a.id = did ∧ a.customer_number = cust
  · rw [if_pos hcond] at hp
    simp only [decide_eq_true_eq] at hp
    exact absurd hp.2 hst
  · rwa [if_neg hcond] at hp

theorem singleDraftInv_expire_old_drafts (now : Nat) (db : DB)
    (hinv : singleDraftInv db) : singleDraftInv (expire_old_drafts now db).1 := by
  intro c
  unfold expire_old_drafts
  refine le_trans (countP_map_le _ _ _ ?_) (hinv c)
  intro a _ hp
  by_cases hcond : a.status = DraftStatus.proposed ∧ a.expires_ts ≤ now
  · rw [if_pos hcond] at hp
    simp only [decide_eq_true_eq] at hp
    cases hp.2
  · rwa [if_neg hcond] at hp

theorem create_draft_count (now : Nat)
    (meta cust sk sl : String) (s e hid hm : Nat) (db : DB) :
    (create_draft now meta cust sk sl s e hid hm db).1.drafts.countP
      (fun d => decide (d.customer_number = cust ∧ d.status = .proposed)) = 1 := by
  unfold create_draft
  rw [List.countP_append, List.countP_eq_zero.mpr, Nat.zero_add]
  · simp
  · intro b hb
    rw [List.mem_map] at hb
    obtain ⟨a, _, rfl⟩ := hb
    by_cases hca : a.customer_number = cust ∧ a.status = DraftStatus.proposed
    · simp [hca]
    · simp only [if_neg hca]
      simpa using hca

theorem singleDraftInv_create_draft (now : Nat)
    (meta cust sk sl : String) (s e hid hm : Nat) (db : DB)
    (hinv : singleDraftInv db) :
    singleDraftInv (create_draft now meta cust sk sl s e hid hm db).1 := by
  intro c
  by_cases hc : c = cust
  · subst hc
    rw [create_draft_count]
  · unfold create_draft
    rw [List.countP_append]
    have h2 : (List.countP (fun d => decide (d.customer_number = c ∧ d.status = .proposed))
        [({ id := db.nextDraftId, created_ts := now, expires_ts := now + hm,
            meta_phone_number_id := meta, customer_number := cust, service_key := sk,
            service_label := sl, start_ts := s, end_ts := e, hold_id := hid,
            status := .proposed } : DraftRow)]) = 0 := by
      rw [List.countP_eq_zero]
      intro b hb
      rw [List.mem_singleton] at hb
      subst hb
      simp only [decide_eq_true_eq, not_and]
      intro hcc _
      exact hc hcc.symm
    rw [h2]
    have h3 := countP_map_le
      (fun d : DraftRow => if d.customer_number = cust ∧ d.status = DraftStatus.proposed then
        { d with status := DraftStatus.cancelled } else d)
      (fun d => decide (d.customer_number = c ∧ d.status = DraftStatus.proposed))
      db.drafts ?_
    · calc _ ≤ db.drafts.countP
            (fun d => decide (d.customer_number = c ∧ d.status = DraftStatus.proposed)) + 0 := by
            omega
        _ ≤ 1 := by simpa using hinv c
    · intro a _ hp
      dsimp only at hp ⊢
      by_cases hca : a.customer_number = cust ∧ a.status = DraftStatus.proposed
      · rw [if_pos hca] at hp
        simp only [decide_eq_true_eq] at hp
        cases hp.2
      · rwa [if_neg hca] at hp



/-- The state-changing operations of the repository module and admin API,
as the program invokes them (read operations that mutate through lazy
expiry — `get_active_draft`, `get_booking_context` — included). -/
inductive Op
  | expireOldHolds (now : Nat)
  | expireOldDrafts (now : Nat)
  | createHold (now : Nat) (customer_number service_key : String) (start_ts end_ts hold_minutes : Nat)
  | releaseHold (hold_id : Nat)
  | createBookingRequest (now : Nat) (meta customer_number service_key service_label : String) (start_ts end_ts : Nat)
  | linkHoldToRequest (hold_id request_id : Nat)
  | decideRequest (now : Nat) (request_id : Nat) (admin_number : String) (decision : Decision) (admin_note : Option String)
  | createDraft (now : Nat) (meta customer_number service_key service_label : String) (start_ts end_ts hold_id hold_minutes : Nat)
  | markDraft (customer_number : String) (draft_id : Nat) (status : DraftStatus)
  | getActiveDraft (now : Nat) (customer_number : String)
  | upsertBookingContext (now : Nat) (customer_number : String) (sk sl : Option String) (sloc : Option Nat) (ttl : Nat)
  | getBookingContext (now : Nat) (customer_number : String)
  | clearBookingContext (customer_number : String)
  | adminApprove (now : Nat) (ref admin_number : String) (admin_note : Option String)

/-- The state transition of each operation (return values dropped). -/
def applyOp : Op → DB → DB
  | .expireOldHolds now, db => (expire_old_holds now db).1
  | .expireOldDrafts now, db => (expire_old_drafts now db).1
  | .createHold now c k s e m, db => (create_hold now c k s e m db).1
  | .releaseHold h, db => release_hold h db
  | .createBookingRequest now m c k l s e, db => (create_booking_request now m c k l s e db).1
  | .linkHoldToRequest h r, db => link_hold_to_request h r db
  | .decideRequest now r a d n, db => (decide_request now r a d n db).1
  | .createDraft now m c k l s e h hm, db => (create_draft now m c k l s e h hm db).1
  | .markDraft c d st, db => mark_draft c d st db
  | .getActiveDraft now c, db => (get_active_draft now c db).1
  | .upsertBookingContext now c sk sl sloc ttl, db => upsert_booking_context now c sk sl sloc ttl db
  | .getBookingContext now c, db => (get_booking_context now c db).1
  | .clearBookingContext c, db => clear_booking_context c db
  | .adminApprove now ref a n, db => (approve now ref a n db).1

/-- Does the operation write the literal status `proposed` through
`mark_draft`?  The engine never does: its calls pass only "cancelled",
"expired" and "confirmed" (booking_engine.py lines 197, 218, 232, 259, 337). -/
def opMarksProposed : Op → Bool
  | .markDraft _ _ st => decide (st = .proposed)
  | _ => false

theorem singleDraftInv_expire_old_holds (now : Nat) (db : DB)
    (hinv : singleDraftInv db) : singleDraftInv (expire_old_holds now db).1 :=
  fun c => hinv c

theorem singleDraftInv_release_hold (h : Nat) (db : DB)
    (hinv : singleDraftInv db) : singleDraftInv (release_hold h db) :=
  fun c => hinv c

theorem singleDraftInv_upsert (now : Nat) (c0 : String) (sk sl : Option String)
    (sloc : Option Nat) (ttl : Nat) (db : DB) (hinv : singleDraftInv db) :
    singleDraftInv (upsert_booking_context now c0 sk sl sloc ttl db) := by
  intro c
  unfold upsert_booking_context
  split
  · exact hinv c
  · exact hinv c

theorem singleDraftInv_get_booking_context (now : Nat) (c0 : String) (db : DB)
    (hinv : singleDraftInv db) : singleDraftInv (get_booking_context now c0 db).1 := by
  intro c
  unfold get_booking_context
  split
  · exact hinv c
  · split
    · exact hinv c
    · exact hinv c

theorem singleDraftInv_get_active_draft (now : Nat) (c0 : String) (db : DB)
    (hinv : singleDraftInv db) : singleDraftInv (get_active_draft now c0 db).1 :=
  singleDraftInv_expire_old_drafts now db hinv

theorem singleDraftInv_approve (now : Nat) (ref admin : String) (note : Option String)
    (db : DB) (hinv : singleDraftInv db) : singleDraftInv (approve now ref admin note db).1 := by
  intro c
  unfold approve
  split
  · exact hinv c
  · split
    · exact hinv c
    · dsimp only
      split
      · split
        · exact hinv c
        · exact hinv c
      · exact hinv c

/-- Invariant preservation for every repository/admin operation; the one
side condition is that `mark_draft` is not invoked with the literal status
`proposed`, which no call site in the program does. -/
theorem singleDraftInv_applyOp (op : Op) (db : DB) (hinv : singleDraftInv db)
    (hmk : opMarksProposed op = false) : singleDraftInv (applyOp op db) := by
  cases op with
  | expireOldHolds now => exact singleDraftInv_expire_old_holds now db hinv
  | expireOldDrafts now => exact singleDraftInv_expire_old_drafts now db hinv
  | createHold now c k s e m => exact fun c2 => hinv c2
  | releaseHold h => exact singleDraftInv_release_hold h db hinv
  | createBookingRequest now m c k l s e => exact fun c2 => hinv c2
  | linkHoldToRequest h r => exact fun c2 => hinv c2
  | decideRequest now r a d n => exact fun c2 => hinv c2
  | createDraft now m c k l s e h hm => exact singleDraftInv_create_draft now m c k l s e h hm db hinv
  | markDraft c d st =>
    refine singleDraftInv_mark_draft c d st ?_ db hinv
    simp only [opMarksProposed, decide_eq_false_iff_not] at hmk
    exact hmk
  | getActiveDraft now c => exact singleDraftInv_get_active_draft now c db hinv
  | upsertBookingContext now c sk sl sloc ttl => exact singleDraftInv_upsert now c sk sl sloc ttl db hinv
  | getBookingContext now c => exact singleDraftInv_get_booking_context now c db hinv
  | clearBookingContext c => exact fun c2 => hinv c2
  | adminApprove now ref a n => exact singleDraftInv_approve now ref a n db hinv



theorem singleDraftInv_confirm_flow (now : Nat) (cust : String) (did hid : Nat)
    (meta sk sl : String) (s e : Nat) (db : DB) (hinv : singleDraftInv db) :
    singleDraftInv (confirm_flow now cust did hid meta sk sl s e db).1 := by
  unfold confirm_flow
  dsimp only
  have h1 : singleDraftInv (expire_old_drafts now (expire_old_holds now db).1).1 :=
    singleDraftInv_expire_old_drafts now _ (singleDraftInv_expire_old_holds now db hinv)
  split
  · exact singleDraftInv_mark_draft cust did .expired (by decide) _
      (singleDraftInv_release_hold hid _ h1)
  · exact fun c => h1 c



theorem singleDraftInv_create_hold (now : Nat) (c k : String) (s e m : Nat) (db : DB)
    (hinv : singleDraftInv db) : singleDraftInv (create_hold now c k s e m db).1 :=
  fun c2 => hinv c2

theorem singleDraftInv_create_booking_request (now : Nat) (m c k l : String)
    (s e : Nat) (db : DB) (hinv : singleDraftInv db) :
    singleDraftInv (create_booking_request now m c k l s e db).1 :=
  fun c2 => hinv c2

theorem singleDraftInv_clear_booking_context (c : String) (db : DB)
    (hinv : singleDraftInv db) : singleDraftInv (clear_booking_context c db) :=
  fun c2 => hinv c2

set_option maxHeartbeats 2000000 in
theorem singleDraftInv_stage1 (now : Nat) (meta cust txt : String)
    (parse : BookingParse) (db : DB) (hinv : singleDraftInv db) :
    singleDraftInv (stage1 now meta cust txt parse db).1 := by
  unfold stage1
  dsimp only
  repeat' split
  all_goals try dsimp only
  all_goals
    repeat
      first
      | exact hinv
      | refine singleDraftInv_clear_booking_context _ _ ?_
      | refine singleDraftInv_create_draft _ _ _ _ _ _ _ _ _ _ ?_
      | refine singleDraftInv_create_hold _ _ _ _ _ _ _ ?_
      | refine singleDraftInv_mark_draft _ _ _ (by decide) _ ?_
      | refine singleDraftInv_release_hold _ _ ?_
      | refine singleDraftInv_upsert _ _ _ _ _ _ _ ?_
      | refine singleDraftInv_expire_old_drafts _ _ ?_
      | refine singleDraftInv_expire_old_holds _ _ ?_
      | refine singleDraftInv_get_active_draft _ _ _ ?_
      | refine singleDraftInv_get_booking_context _ _ _ ?_
      | refine singleDraftInv_create_booking_request _ _ _ _ _ _ _ _ ?_

set_option maxHeartbeats 2000000 in
theorem singleDraftInv_step (now : Nat) (meta cust txt : String)
    (parse : BookingParse) (db : DB) (hinv : singleDraftInv db) :
    singleDraftInv (try_create_pending_booking now meta cust txt parse db).1 := by
  unfold try_create_pending_booking
  dsimp only
  repeat' split
  all_goals try dsimp only
  all_goals
    repeat
      first
      | exact hinv
      | refine singleDraftInv_stage1 _ _ _ _ _ _ ?_
      | refine singleDraftInv_confirm_flow _ _ _ _ _ _ _ _ _ _ ?_
      | refine singleDraftInv_clear_booking_context _ _ ?_
      | refine singleDraftInv_create_draft _ _ _ _ _ _ _ _ _ _ ?_
      | refine singleDraftInv_create_hold _ _ _ _ _ _ _ ?_
      | refine singleDraftInv_mark_draft _ _ _ (by decide) _ ?_
      | refine singleDraftInv_release_hold _ _ ?_
      | refine singleDraftInv_upsert _ _ _ _ _ _ _ ?_
      | refine singleDraftInv_expire_old_drafts _ _ ?_
      | refine singleDraftInv_expire_old_holds _ _ ?_
      | refine singleDraftInv_get_active_draft _ _ _ ?_
      | refine singleDraftInv_get_booking_context _ _ _ ?_
      | refine singleDraftInv_create_booking_request _ _ _ _ _ _ _ _ ?_



theorem create_draft_post (now : Nat) (meta cust sk sl : String)
    (s e hid hmin : Nat) (db : DB) :
    (∀ d ∈ db.drafts, d.customer_number = cust → d.status = .proposed →
       { d with status := DraftStatus.cancelled } ∈
         (create_draft now meta cust sk sl s e hid hmin db).1.drafts) ∧
    (∀ hr ∈ db.holds, hr.status = .active →
       (∃ d ∈ db.drafts, d.customer_number = cust ∧ d.status = .proposed ∧ d.hold_id = hr.id) →
       { hr with status := HoldStatus.released } ∈
         (create_draft now meta cust sk sl s e hid hmin db).1.holds) := by
  constructor
  · intro d hd hc hs
    unfold create_draft
    dsimp only
    rw [List.mem_append]
    left
    have hmm := List.mem_map_of_mem (f := fun d : DraftRow =>
      if d.customer_number = cust ∧ d.status = DraftStatus.proposed then
        { d with status := DraftStatus.cancelled } else d) hd
    dsimp only at hmm
    rw [if_pos ⟨hc, hs⟩] at hmm
    exact hmm
  · intro hr hrm hact hex
    unfold create_draft
    dsimp only
    have hin : hr.id ∈ (db.drafts.filter fun d =>
        decide (d.customer_number = cust ∧ d.status = .proposed)).map (fun d => d.hold_id) := by
      obtain ⟨d, hd, hdc, hds, hdh⟩ := hex
      rw [List.mem_map]
      exact ⟨d, List.mem_filter.mpr ⟨hd, decide_eq_true ⟨hdc, hds⟩⟩, hdh⟩
    have hmm := List.mem_map_of_mem (f := fun h : HoldRow =>
      if h.id ∈ (db.drafts.filter fun d =>
          decide (d.customer_number = cust ∧ d.status = .proposed)).map (fun d => d.hold_id) ∧
          h.status = HoldStatus.active then
        { h with status := HoldStatus.released } else h) hrm
    dsimp only at hmm
    rw [if_pos ⟨hin, hact⟩] at hmm
    exact hmm

/-- C4: the single-active-draft invariant — at most one `proposed` draft
per customer — is preserved by every repository/admin operation (the one
proviso: `mark_draft` not invoked with literal status `proposed`, which no
call site does) and by the whole orchestrator turn; and `create_draft`
cancels every previously `proposed` draft of the customer, releases each
such draft's still-active hold, and leaves exactly one `proposed` draft
(the new one) for that customer. -/
theorem C4_single_active_draft :
    (∀ (op : Op) (db : DB), singleDraftInv db → opMarksProposed op = false →
       singleDraftInv (applyOp op db)) ∧
    (∀ (now : Nat) (meta cust txt : String) (parse : BookingParse) (db : DB),
       singleDraftInv db →
       singleDraftInv (try_create_pending_booking now meta cust txt parse db).1) ∧
    (∀ (now : Nat) (meta cust sk sl : String) (s e hid hmin : Nat) (db : DB),
       (∀ d ∈ db.drafts, d.customer_number = cust → d.status = .proposed →
          { d with status := DraftStatus.cancelled } ∈
            (create_draft now meta cust sk sl s e hid hmin db).1.drafts) ∧
       (∀ hr ∈ db.holds, hr.status = .active →
          (∃ d ∈ db.drafts, d.customer_number = cust ∧ d.status = .proposed ∧
             d.hold_id = hr.id) →
          { hr with status := HoldStatus.released } ∈
            (create_draft now meta cust sk sl s e hid hmin db).1.holds) ∧
       (create_draft now meta cust sk sl s e hid hmin db).1.drafts.countP
         (fun d => decide (d.customer_number = cust ∧ d.status = .proposed)) = 1) := by
  refine ⟨singleDraftInv_applyOp, ?_, ?_⟩
  · intro now meta cust txt parse db hinv
    exact singleDraftInv_step now meta cust txt parse db hinv
  · intro now meta cust sk sl s e hid hmin db
    exact ⟨(create_draft_post now meta cust sk sl s e hid hmin db).1,
      (create_draft_post now meta cust sk sl s e hid hmin db).2,
      create_draft_count now meta cust sk sl s e hid hmin db⟩

theorem C4_witness :
    singleDraftInv (applyOp (Op.markDraft "c" 1 .confirmed) dbA) ∧
    singleDraftInv (try_create_pending_booking 100 "m" "c" "maybe" parse0 dbA).1 ∧
    (create_draft 100 "m" "c" "car_wash" "Car wash" 660 720 5 10 dbA).1.drafts.countP
      (fun d => decide (d.customer_number = "c" ∧ d.status = DraftStatus.proposed)) = 1 := by
  have hinv : singleDraftInv dbA := by
    intro c
    exact le_trans (List.countP_le_length _) (by decide)
  exact ⟨C4_single_active_draft.1 (Op.markDraft "c" 1 .confirmed) dbA hinv (by decide),
    C4_single_active_draft.2.1 100 "m" "c" "maybe" parse0 dbA hinv,
    (C4_single_active_draft.2.2 100 "m" "c" "car_wash" "Car wash" 660 720 5 10 dbA).2.2⟩

end WhatsappBooking
